import Mathlib

/-! Interrupt dispatch layer of MSE_OS (`src/MSE_OS_IRQ.c`).

Shallow embedding of the registration table `isr_vector_usuario`, of
`os_InstalarIRQ`, `os_RemoverIRQ` and of the dispatch routine `os_IRQHandler`,
as state-passing functions over an explicit kernel state `OS`.

Every call that leaves the module (NVIC driver, kernel run-state port, the user
routine) is recorded in `OS.trace`, so that statements about which calls are
issued, how often and in which order are statements about that list.
-/

namespace MSE_OS_IRQ

/-- A C pointer value (`void*`), as a machine address. -/
abbrev Ptr := Nat

/-- The null pointer. -/
def NULL : Ptr := 0

/-- Values of the C enumeration `estadoOS` (the enumeration is declared in a
header that is not part of the sources; an enumeration value is an integer). -/
abbrev estadoOS := Nat

/-- One call leaving `MSE_OS_IRQ.c`. -/
inductive Event where
  | NVIC_ClearPendingIRQ (irq : Int)
  | NVIC_EnableIRQ (irq : Int)
  | NVIC_DisableIRQ (irq : Int)
  | os_getEstadoSistema
  | os_setEstadoSistema (e : estadoOS)
  | os_getFlagISR
  | os_setFlagISR (b : Bool)
  | os_Yield
  | funcion_usuario (p : Ptr)
  deriving DecidableEq, Repr

/-- The state the module works on.

`isr_vector_usuario` is the static array of the source, read as the words of
memory addressed from the base of the array: indices `0 .. CANT_IRQ - 1` are
the array itself, and there the embedding is exact. Any other index stands for
the word the unchecked index expression `isr_vector_usuario[irq]` reaches
(`LPC43XX_IRQn_Type` is a signed enumeration); the source leaves that access
undefined, and reading it as an ordinary private word is an idealisation, so
general statements are made for identifiers inside the array only. The other
fields are the state behind the two external ports. -/
structure OS where
  isr_vector_usuario : Int → Ptr
  estadoSistema : estadoOS
  flagISR : Bool
  nvic_enabled : Int → Bool
  nvic_pending : Int → Bool
  trace : List Event

/-- Why a call does not return to its caller: the target faults on a call
through the null pointer, or the routine called never returns. -/
inductive Fallo where
  | llamada_nula
  | no_retorna
  deriving DecidableEq, Repr

/-- What the routine at an address does when it is called with no arguments:
it either returns, leaving a new state, or it does not return. -/
abbrev Codigo := Ptr → OS → Except Fallo OS

/-- An identifier is valid when it indexes the array. -/
def valido (CANT_IRQ : Nat) (irq : Int) : Prop := 0 ≤ irq ∧ irq < (CANT_IRQ : Int)

instance (CANT_IRQ : Nat) (irq : Int) : Decidable (valido CANT_IRQ irq) :=
  inferInstanceAs (Decidable (0 ≤ irq ∧ irq < (CANT_IRQ : Int)))

/-! ## The external ports -/

/-- Modelled from the spec: the driver routine `NVIC_ClearPendingIRQ` is not in
the sources; it is the port operation "clear its pending flag" of a line. -/
def NVIC_ClearPendingIRQ (irq : Int) (s : OS) : OS :=
  { s with
    nvic_pending := fun j => if j = irq then false else s.nvic_pending j
    trace := s.trace ++ [Event.NVIC_ClearPendingIRQ irq] }

/-- Modelled from the spec: the driver routine `NVIC_EnableIRQ` is not in the
sources; it is the port operation "enable a line". -/
def NVIC_EnableIRQ (irq : Int) (s : OS) : OS :=
  { s with
    nvic_enabled := fun j => if j = irq then true else s.nvic_enabled j
    trace := s.trace ++ [Event.NVIC_EnableIRQ irq] }

/-- Modelled from the spec: the driver routine `NVIC_DisableIRQ` is not in the
sources; it is the port operation "disable a line". -/
def NVIC_DisableIRQ (irq : Int) (s : OS) : OS :=
  { s with
    nvic_enabled := fun j => if j = irq then false else s.nvic_enabled j
    trace := s.trace ++ [Event.NVIC_DisableIRQ irq] }

/-- Modelled from the spec: `os_getEstadoSistema` is not in the sources; it is
`getState() -> State` of the kernel run-state port. -/
def os_getEstadoSistema (s : OS) : estadoOS × OS :=
  (s.estadoSistema, { s with trace := s.trace ++ [Event.os_getEstadoSistema] })

/-- Modelled from the spec: `os_setEstadoSistema` is not in the sources; it is
`setState(State)` of the kernel run-state port. -/
def os_setEstadoSistema (e : estadoOS) (s : OS) : OS :=
  { s with estadoSistema := e, trace := s.trace ++ [Event.os_setEstadoSistema e] }

/-- Modelled from the spec: `os_getFlagISR` is not in the sources; it is
`getDeferredFlag() -> bool` of the kernel run-state port. -/
def os_getFlagISR (s : OS) : Bool × OS :=
  (s.flagISR, { s with trace := s.trace ++ [Event.os_getFlagISR] })

/-- Modelled from the spec: `os_setFlagISR` is not in the sources; it is
`setDeferredFlag(bool)` of the kernel run-state port. -/
def os_setFlagISR (b : Bool) (s : OS) : OS :=
  { s with flagISR := b, trace := s.trace ++ [Event.os_setFlagISR b] }

/-- Modelled from the spec: `os_Yield` is not in the sources; it is
`requestReschedule()` of the kernel run-state port, a request that is noted
and acted on by the scheduler later, not a task switch performed inline. -/
def os_Yield (s : OS) : OS :=
  { s with trace := s.trace ++ [Event.os_Yield] }

/-- The call `funcion_usuario()` through a function pointer: the call is
recorded, then what is at that address runs. The source makes no test of the
pointer, so neither does the call: what a call through the null pointer does
is what `codigo` says of address 0. -/
def llamar (codigo : Codigo) (p : Ptr) (s : OS) : Except Fallo OS :=
  codigo p { s with trace := s.trace ++ [Event.funcion_usuario p] }

/-! ## The module -/

/-- `bool os_InstalarIRQ(LPC43XX_IRQn_Type irq, void* usr_isr)`. -/
def os_InstalarIRQ (irq : Int) (usr_isr : Ptr) (s : OS) : Bool × OS :=
  let status := false
  if s.isr_vector_usuario irq = NULL then
    let s := { s with
      isr_vector_usuario := fun j => if j = irq then usr_isr else s.isr_vector_usuario j }
    let s := NVIC_ClearPendingIRQ irq s
    let s := NVIC_EnableIRQ irq s
    let status := true
    (status, s)
  else
    (status, s)

/-- `bool os_RemoverIRQ(LPC43XX_IRQn_Type irq)`. -/
def os_RemoverIRQ (irq : Int) (s : OS) : Bool × OS :=
  let status := false
  if s.isr_vector_usuario irq ≠ NULL then
    let s := { s with
      isr_vector_usuario := fun j => if j = irq then NULL else s.isr_vector_usuario j }
    let s := NVIC_ClearPendingIRQ irq s
    let s := NVIC_DisableIRQ irq s
    let status := true
    (status, s)
  else
    (status, s)

/-- `static void os_IRQHandler(LPC43XX_IRQn_Type IRQn)`. The enumeration value
`OS_IRQ_RUN` comes from a header that is not part of the sources and is taken
as a parameter. -/
def os_IRQHandler (OS_IRQ_RUN : estadoOS) (codigo : Codigo) (IRQn : Int) (s : OS) :
    Except Fallo OS :=
  let (estadoPrevio_OS, s) := os_getEstadoSistema s
  let s := os_setEstadoSistema OS_IRQ_RUN s
  let funcion_usuario := s.isr_vector_usuario IRQn
  match llamar codigo funcion_usuario s with
  | Except.error e => Except.error e
  | Except.ok s =>
    let s := os_setEstadoSistema estadoPrevio_OS s
    let s := NVIC_ClearPendingIRQ IRQn s
    let (flag, s) := os_getFlagISR s
    if flag then
      let s := os_setFlagISR false s
      let s := os_Yield s
      Except.ok s
    else
      Except.ok s

/-! ## Observation points of `os_IRQHandler` -/

/-- The state in which the user routine starts to run: the state after lines
96-103 of the source up to and including the call itself. -/
def os_IRQHandler_entrada (OS_IRQ_RUN : estadoOS) (IRQn : Int) (s : OS) : OS :=
  let s1 := os_setEstadoSistema OS_IRQ_RUN (os_getEstadoSistema s).2
  { s1 with trace := s1.trace ++ [Event.funcion_usuario (s1.isr_vector_usuario IRQn)] }

/-- The calls `os_IRQHandler` itself issues before the user routine runs. -/
def os_IRQHandler_antes (OS_IRQ_RUN : estadoOS) (p : Ptr) : List Event :=
  [Event.os_getEstadoSistema, Event.os_setEstadoSistema OS_IRQ_RUN, Event.funcion_usuario p]

/-- The calls `os_IRQHandler` itself issues after the user routine has
returned, given the saved state and the flag value the routine left. -/
def os_IRQHandler_despues (estadoPrevio_OS : estadoOS) (IRQn : Int) (flag : Bool) : List Event :=
  [Event.os_setEstadoSistema estadoPrevio_OS, Event.NVIC_ClearPendingIRQ IRQn,
    Event.os_getFlagISR] ++
  (if flag then [Event.os_setFlagISR false, Event.os_Yield] else [])

/-- The state `os_IRQHandler` leaves once the user routine has returned in
state `s`: the state after lines 106-119 of the source. -/
def os_IRQHandler_salida (estadoPrevio_OS : estadoOS) (IRQn : Int) (s : OS) : OS :=
  let s := os_setEstadoSistema estadoPrevio_OS s
  let s := NVIC_ClearPendingIRQ IRQn s
  let (flag, s) := os_getFlagISR s
  if flag then os_Yield (os_setFlagISR false s) else s

/-- Dispatching `IRQn` in state `s` invokes the routine at address `p`: the
calls recorded up to the start of the routine are those of
`os_IRQHandler_antes` with a call of `p`, and whatever code the addresses hold,
the dispatch is the run of the routine at `p` from the entry state, followed by
the closing steps (whose calls are those of `os_IRQHandler_despues`). -/
def invoca (OS_IRQ_RUN : estadoOS) (IRQn : Int) (s : OS) (p : Ptr) : Prop :=
  (os_IRQHandler_entrada OS_IRQ_RUN IRQn s).trace
      = s.trace ++ os_IRQHandler_antes OS_IRQ_RUN p ∧
  ∀ codigo : Codigo,
    os_IRQHandler OS_IRQ_RUN codigo IRQn s =
      match codigo p (os_IRQHandler_entrada OS_IRQ_RUN IRQn s) with
      | Except.error e => Except.error e
      | Except.ok s2 => Except.ok (os_IRQHandler_salida s.estadoSistema IRQn s2)

/-- An empty table: every slot of the array holds the null pointer. -/
def tabla_vacia (CANT_IRQ : Nat) (s : OS) : Prop :=
  ∀ i : Nat, i < CANT_IRQ → s.isr_vector_usuario (i : Int) = NULL

instance (CANT_IRQ : Nat) (s : OS) : Decidable (tabla_vacia CANT_IRQ s) :=
  inferInstanceAs (Decidable (∀ i : Nat, i < CANT_IRQ → s.isr_vector_usuario (i : Int) = NULL))

/-- A concrete state used in the examples: table of four slots, all empty,
every line disabled, nothing pending, nothing recorded. -/
def os_inicial : OS :=
  { isr_vector_usuario := fun _ => NULL
    estadoSistema := 1
    flagISR := false
    nvic_enabled := fun _ => false
    nvic_pending := fun _ => false
    trace := [] }

/-- The example state after `os_InstalarIRQ(2, 7)`. -/
def os_con_rutina : OS := (os_InstalarIRQ 2 7 os_inicial).2

/-- Example code: the routine at address 7 overwrites the run-state and sets
the deferred-reschedule flag; every other routine returns at once. -/
def codigo_ej : Codigo := fun p s =>
  if p = 7 then Except.ok (os_setFlagISR true (os_setEstadoSistema 99 s)) else Except.ok s

/-- Example code: every routine returns at once. -/
def codigo_nada : Codigo := fun _ s => Except.ok s

/-! ## The run of a user routine, step by step -/

/-- The state after the steps of a routine have run, in order, from `s`. -/
def ejecutar_pasos (pasos : List (OS → OS)) (s : OS) : OS :=
  pasos.foldl (fun s paso => paso s) s

/-- The state a routine that started in `s` is in after its first `n` steps:
the points of its execution are `n = 0` (entry) up to `n = pasos.length`
(return). -/
def estado_tras (pasos : List (OS → OS)) (s : OS) (n : Nat) : OS :=
  ejecutar_pasos (pasos.take n) s

/-- The routine does not clear the deferred-reschedule flag: no step of its
run from `s` that starts with the flag set ends with the flag clear. -/
def no_borra_flag (pasos : List (OS → OS)) (s : OS) : Prop :=
  ∀ n, n < pasos.length →
    (estado_tras pasos s n).flagISR = true → (estado_tras pasos s (n + 1)).flagISR = true

instance (pasos : List (OS → OS)) (s : OS) : Decidable (no_borra_flag pasos s) :=
  inferInstanceAs (Decidable (∀ n, n < pasos.length →
    (estado_tras pasos s n).flagISR = true → (estado_tras pasos s (n + 1)).flagISR = true))

/-- The steps of the routine at address 7 of `codigo_ej`. -/
def pasos_ej : List (OS → OS) := [os_setEstadoSistema 99, os_setFlagISR true]

/-! ## Sequences of registration calls -/

/-- One call of the registration interface. -/
inductive Llamada where
  | instalar (irq : Int) (usr_isr : Ptr)
  | remover (irq : Int)
  deriving DecidableEq, Repr

/-- The state one registration call leaves. -/
def Llamada.ejecutar : Llamada → OS → OS
  | Llamada.instalar irq usr_isr, s => (os_InstalarIRQ irq usr_isr s).2
  | Llamada.remover irq, s => (os_RemoverIRQ irq s).2

/-- The state a sequence of registration calls leaves, first call first. -/
def ejecutar (cs : List Llamada) (s : OS) : OS :=
  cs.foldl (fun s c => c.ejecutar s) s

/-- A registration call as the interface expects it: a valid identifier, and a
non-null routine when installing. -/
def Llamada.correcta (CANT_IRQ : Nat) : Llamada → Prop
  | Llamada.instalar irq usr_isr => valido CANT_IRQ irq ∧ usr_isr ≠ NULL
  | Llamada.remover irq => valido CANT_IRQ irq

instance (CANT_IRQ : Nat) : (c : Llamada) → Decidable (Llamada.correcta CANT_IRQ c)
  | Llamada.instalar irq usr_isr =>
    inferInstanceAs (Decidable (valido CANT_IRQ irq ∧ usr_isr ≠ NULL))
  | Llamada.remover irq => inferInstanceAs (Decidable (valido CANT_IRQ irq))

/-- Every line of the controller is disabled. -/
def lineas_deshabilitadas (CANT_IRQ : Nat) (s : OS) : Prop :=
  ∀ i : Nat, i < CANT_IRQ → s.nvic_enabled (i : Int) = false

instance (CANT_IRQ : Nat) (s : OS) : Decidable (lineas_deshabilitadas CANT_IRQ s) :=
  inferInstanceAs (Decidable (∀ i : Nat, i < CANT_IRQ → s.nvic_enabled (i : Int) = false))

/-- An example sequence of registration calls on a table of four slots. -/
def llamadas_ej : List Llamada :=
  [Llamada.instalar 2 7, Llamada.instalar 1 9, Llamada.instalar 2 5, Llamada.remover 2,
   Llamada.remover 0, Llamada.remover 2]

/-- A line is enabled at the controller exactly if its slot holds a routine. -/
def armada_sii_registrada (CANT_IRQ : Nat) (s : OS) : Prop :=
  ∀ irq : Int, valido CANT_IRQ irq →
    (s.nvic_enabled irq = true ↔ s.isr_vector_usuario irq ≠ NULL)

/-! ## The vector stubs -/

/-- The enumeration constants of `LPC43XX_IRQn_Type` that the source names, in
the order in which lines 124-173 name them (the enumeration itself is declared
in a header that is not part of the sources). -/
inductive LPC43XX_IRQn_Type where
  | DAC_IRQn
  | M0APP_IRQn
  | DMA_IRQn
  | RESERVED1_IRQn
  | ETHERNET_IRQn
  | SDIO_IRQn
  | LCD_IRQn
  | USB0_IRQn
  | USB1_IRQn
  | SCT_IRQn
  | RITIMER_IRQn
  | TIMER0_IRQn
  | TIMER1_IRQn
  | TIMER2_IRQn
  | TIMER3_IRQn
  | MCPWM_IRQn
  | ADC0_IRQn
  | I2C0_IRQn
  | I2C1_IRQn
  | SPI_INT_IRQn
  | ADC1_IRQn
  | SSP0_IRQn
  | SSP1_IRQn
  | USART0_IRQn
  | UART1_IRQn
  | USART2_IRQn
  | USART3_IRQn
  | I2S0_IRQn
  | I2S1_IRQn
  | RESERVED4_IRQn
  | SGPIO_INT_IRQn
  | PIN_INT0_IRQn
  | PIN_INT1_IRQn
  | PIN_INT2_IRQn
  | PIN_INT3_IRQn
  | PIN_INT4_IRQn
  | PIN_INT5_IRQn
  | PIN_INT6_IRQn
  | PIN_INT7_IRQn
  | GINT0_IRQn
  | GINT1_IRQn
  | EVENTROUTER_IRQn
  | C_CAN1_IRQn
  | ADCHS_IRQn
  | ATIMER_IRQn
  | RTC_IRQn
  | WWDT_IRQn
  | M0SUB_IRQn
  | C_CAN0_IRQn
  | QEI_IRQn
  deriving DecidableEq, Repr

/-- The hardware vectors: one per stub function of lines 124-173, under the
name of the function the vector table binds to it. -/
inductive Vector_IRQ where
  | DAC_IRQHandler
  | M0APP_IRQHandler
  | DMA_IRQHandler
  | FLASH_EEPROM_IRQHandler
  | ETH_IRQHandler
  | SDIO_IRQHandler
  | LCD_IRQHandler
  | USB0_IRQHandler
  | USB1_IRQHandler
  | SCT_IRQHandler
  | RIT_IRQHandler
  | TIMER0_IRQHandler
  | TIMER1_IRQHandler
  | TIMER2_IRQHandler
  | TIMER3_IRQHandler
  | MCPWM_IRQHandler
  | ADC0_IRQHandler
  | I2C0_IRQHandler
  | SPI_IRQHandler
  | I2C1_IRQHandler
  | ADC1_IRQHandler
  | SSP0_IRQHandler
  | SSP1_IRQHandler
  | UART0_IRQHandler
  | UART1_IRQHandler
  | UART2_IRQHandler
  | UART3_IRQHandler
  | I2S0_IRQHandler
  | I2S1_IRQHandler
  | SPIFI_IRQHandler
  | SGPIO_IRQHandler
  | GPIO0_IRQHandler
  | GPIO1_IRQHandler
  | GPIO2_IRQHandler
  | GPIO3_IRQHandler
  | GPIO4_IRQHandler
  | GPIO5_IRQHandler
  | GPIO6_IRQHandler
  | GPIO7_IRQHandler
  | GINT0_IRQHandler
  | GINT1_IRQHandler
  | EVRT_IRQHandler
  | CAN1_IRQHandler
  | ADCHS_IRQHandler
  | ATIMER_IRQHandler
  | RTC_IRQHandler
  | WDT_IRQHandler
  | M0SUB_IRQHandler
  | CAN0_IRQHandler
  | QEI_IRQHandler
  deriving DecidableEq, Repr

/-- The identifier each stub passes to `os_IRQHandler`, line by line. -/
def stub_IRQn : Vector_IRQ → LPC43XX_IRQn_Type
  | Vector_IRQ.DAC_IRQHandler => LPC43XX_IRQn_Type.DAC_IRQn
  | Vector_IRQ.M0APP_IRQHandler => LPC43XX_IRQn_Type.M0APP_IRQn
  | Vector_IRQ.DMA_IRQHandler => LPC43XX_IRQn_Type.DMA_IRQn
  | Vector_IRQ.FLASH_EEPROM_IRQHandler => LPC43XX_IRQn_Type.RESERVED1_IRQn
  | Vector_IRQ.ETH_IRQHandler => LPC43XX_IRQn_Type.ETHERNET_IRQn
  | Vector_IRQ.SDIO_IRQHandler => LPC43XX_IRQn_Type.SDIO_IRQn
  | Vector_IRQ.LCD_IRQHandler => LPC43XX_IRQn_Type.LCD_IRQn
  | Vector_IRQ.USB0_IRQHandler => LPC43XX_IRQn_Type.USB0_IRQn
  | Vector_IRQ.USB1_IRQHandler => LPC43XX_IRQn_Type.USB1_IRQn
  | Vector_IRQ.SCT_IRQHandler => LPC43XX_IRQn_Type.SCT_IRQn
  | Vector_IRQ.RIT_IRQHandler => LPC43XX_IRQn_Type.RITIMER_IRQn
  | Vector_IRQ.TIMER0_IRQHandler => LPC43XX_IRQn_Type.TIMER0_IRQn
  | Vector_IRQ.TIMER1_IRQHandler => LPC43XX_IRQn_Type.TIMER1_IRQn
  | Vector_IRQ.TIMER2_IRQHandler => LPC43XX_IRQn_Type.TIMER2_IRQn
  | Vector_IRQ.TIMER3_IRQHandler => LPC43XX_IRQn_Type.TIMER3_IRQn
  | Vector_IRQ.MCPWM_IRQHandler => LPC43XX_IRQn_Type.MCPWM_IRQn
  | Vector_IRQ.ADC0_IRQHandler => LPC43XX_IRQn_Type.ADC0_IRQn
  | Vector_IRQ.I2C0_IRQHandler => LPC43XX_IRQn_Type.I2C0_IRQn
  | Vector_IRQ.SPI_IRQHandler => LPC43XX_IRQn_Type.I2C1_IRQn
  | Vector_IRQ.I2C1_IRQHandler => LPC43XX_IRQn_Type.SPI_INT_IRQn
  | Vector_IRQ.ADC1_IRQHandler => LPC43XX_IRQn_Type.ADC1_IRQn
  | Vector_IRQ.SSP0_IRQHandler => LPC43XX_IRQn_Type.SSP0_IRQn
  | Vector_IRQ.SSP1_IRQHandler => LPC43XX_IRQn_Type.SSP1_IRQn
  | Vector_IRQ.UART0_IRQHandler => LPC43XX_IRQn_Type.USART0_IRQn
  | Vector_IRQ.UART1_IRQHandler => LPC43XX_IRQn_Type.UART1_IRQn
  | Vector_IRQ.UART2_IRQHandler => LPC43XX_IRQn_Type.USART2_IRQn
  | Vector_IRQ.UART3_IRQHandler => LPC43XX_IRQn_Type.USART3_IRQn
  | Vector_IRQ.I2S0_IRQHandler => LPC43XX_IRQn_Type.I2S0_IRQn
  | Vector_IRQ.I2S1_IRQHandler => LPC43XX_IRQn_Type.I2S1_IRQn
  | Vector_IRQ.SPIFI_IRQHandler => LPC43XX_IRQn_Type.RESERVED4_IRQn
  | Vector_IRQ.SGPIO_IRQHandler => LPC43XX_IRQn_Type.SGPIO_INT_IRQn
  | Vector_IRQ.GPIO0_IRQHandler => LPC43XX_IRQn_Type.PIN_INT0_IRQn
  | Vector_IRQ.GPIO1_IRQHandler => LPC43XX_IRQn_Type.PIN_INT1_IRQn
  | Vector_IRQ.GPIO2_IRQHandler => LPC43XX_IRQn_Type.PIN_INT2_IRQn
  | Vector_IRQ.GPIO3_IRQHandler => LPC43XX_IRQn_Type.PIN_INT3_IRQn
  | Vector_IRQ.GPIO4_IRQHandler => LPC43XX_IRQn_Type.PIN_INT4_IRQn
  | Vector_IRQ.GPIO5_IRQHandler => LPC43XX_IRQn_Type.PIN_INT5_IRQn
  | Vector_IRQ.GPIO6_IRQHandler => LPC43XX_IRQn_Type.PIN_INT6_IRQn
  | Vector_IRQ.GPIO7_IRQHandler => LPC43XX_IRQn_Type.PIN_INT7_IRQn
  | Vector_IRQ.GINT0_IRQHandler => LPC43XX_IRQn_Type.GINT0_IRQn
  | Vector_IRQ.GINT1_IRQHandler => LPC43XX_IRQn_Type.GINT1_IRQn
  | Vector_IRQ.EVRT_IRQHandler => LPC43XX_IRQn_Type.EVENTROUTER_IRQn
  | Vector_IRQ.CAN1_IRQHandler => LPC43XX_IRQn_Type.C_CAN1_IRQn
  | Vector_IRQ.ADCHS_IRQHandler => LPC43XX_IRQn_Type.ADCHS_IRQn
  | Vector_IRQ.ATIMER_IRQHandler => LPC43XX_IRQn_Type.ATIMER_IRQn
  | Vector_IRQ.RTC_IRQHandler => LPC43XX_IRQn_Type.RTC_IRQn
  | Vector_IRQ.WDT_IRQHandler => LPC43XX_IRQn_Type.WWDT_IRQn
  | Vector_IRQ.M0SUB_IRQHandler => LPC43XX_IRQn_Type.M0SUB_IRQn
  | Vector_IRQ.CAN0_IRQHandler => LPC43XX_IRQn_Type.C_CAN0_IRQn
  | Vector_IRQ.QEI_IRQHandler => LPC43XX_IRQn_Type.QEI_IRQn

/-- A stub function `void X_IRQHandler(void){os_IRQHandler(Y_IRQn);}`: one
unconditional call of `os_IRQHandler`. The integer value of an enumeration
constant comes from the missing header and is taken as the parameter `valor`. -/
def vector_stub (OS_IRQ_RUN : estadoOS) (codigo : Codigo) (valor : LPC43XX_IRQn_Type → Int)
    (v : Vector_IRQ) (s : OS) : Except Fallo OS :=
  os_IRQHandler OS_IRQ_RUN codigo (valor (stub_IRQn v)) s

/-! ## Nested dispatch -/

/-- Code in which the routine at address `p` is interrupted by a second
dispatch: while it executes, `os_IRQHandler(irq2)` runs to completion (over
the code `interno`), and then the routine returns. Every other address holds
what `interno` holds. -/
def codigo_anidado (OS_IRQ_RUN : estadoOS) (interno : Codigo) (irq2 : Int) (p : Ptr) : Codigo :=
  fun q s => if q = p then os_IRQHandler OS_IRQ_RUN interno irq2 s else interno q s

/-- The example state after `os_InstalarIRQ(2, 9)` and `os_InstalarIRQ(3, 7)`. -/
def os_dos_rutinas : OS := (os_InstalarIRQ 3 7 (os_InstalarIRQ 2 9 os_inicial).2).2

/-! ## Shared lemmas -/

theorem os_IRQHandler_eq_llamada (OS_IRQ_RUN : estadoOS) (codigo : Codigo) (IRQn : Int)
    (s : OS) :
    os_IRQHandler OS_IRQ_RUN codigo IRQn s =
      match codigo (s.isr_vector_usuario IRQn) (os_IRQHandler_entrada OS_IRQ_RUN IRQn s) with
      | Except.error e => Except.error e
      | Except.ok s2 => Except.ok (os_IRQHandler_salida s.estadoSistema IRQn s2) := by
  simp only [os_IRQHandler, os_IRQHandler_entrada, os_IRQHandler_salida, llamar,
    os_getEstadoSistema, os_setEstadoSistema]
  cases codigo (s.isr_vector_usuario IRQn) _ with
  | error e => rfl
  | ok s2 =>
    simp only [os_getFlagISR, NVIC_ClearPendingIRQ]
    cases s2.flagISR <;> rfl

theorem os_IRQHandler_eq (OS_IRQ_RUN : estadoOS) (codigo : Codigo) (IRQn : Int) (s : OS)
    (_hreg : s.isr_vector_usuario IRQn ≠ NULL) :
    os_IRQHandler OS_IRQ_RUN codigo IRQn s =
      match codigo (s.isr_vector_usuario IRQn) (os_IRQHandler_entrada OS_IRQ_RUN IRQn s) with
      | Except.error e => Except.error e
      | Except.ok s2 => Except.ok (os_IRQHandler_salida s.estadoSistema IRQn s2) :=
  os_IRQHandler_eq_llamada OS_IRQ_RUN codigo IRQn s

theorem os_IRQHandler_entrada_trace (OS_IRQ_RUN : estadoOS) (IRQn : Int) (s : OS) :
    (os_IRQHandler_entrada OS_IRQ_RUN IRQn s).trace
      = s.trace ++ os_IRQHandler_antes OS_IRQ_RUN (s.isr_vector_usuario IRQn) := by
  simp [os_IRQHandler_entrada, os_IRQHandler_antes, os_setEstadoSistema, os_getEstadoSistema]

theorem os_IRQHandler_salida_trace (estadoPrevio_OS : estadoOS) (IRQn : Int) (s2 : OS) :
    (os_IRQHandler_salida estadoPrevio_OS IRQn s2).trace
      = s2.trace ++ os_IRQHandler_despues estadoPrevio_OS IRQn s2.flagISR := by
  simp only [os_IRQHandler_salida, os_IRQHandler_despues, os_setEstadoSistema,
    NVIC_ClearPendingIRQ, os_getFlagISR, os_setFlagISR, os_Yield]
  cases s2.flagISR <;> simp

theorem os_IRQHandler_salida_flag (estadoPrevio_OS : estadoOS) (IRQn : Int) (s2 : OS) :
    (os_IRQHandler_salida estadoPrevio_OS IRQn s2).flagISR = false := by
  simp only [os_IRQHandler_salida, os_setEstadoSistema, NVIC_ClearPendingIRQ,
    os_getFlagISR, os_setFlagISR, os_Yield]
  cases h : s2.flagISR <;> simp [h]

theorem os_IRQHandler_salida_estado (estadoPrevio_OS : estadoOS) (IRQn : Int) (s2 : OS) :
    (os_IRQHandler_salida estadoPrevio_OS IRQn s2).estadoSistema = estadoPrevio_OS := by
  simp only [os_IRQHandler_salida, os_setEstadoSistema, NVIC_ClearPendingIRQ,
    os_getFlagISR, os_setFlagISR, os_Yield]
  cases s2.flagISR <;> rfl

theorem estado_tras_length (pasos : List (OS → OS)) (s : OS) :
    estado_tras pasos s pasos.length = ejecutar_pasos pasos s := by
  simp [estado_tras]

theorem flag_sigue_activo (pasos : List (OS → OS)) (s : OS) (hnb : no_borra_flag pasos s) :
    ∀ k n, n + k ≤ pasos.length → (estado_tras pasos s n).flagISR = true →
      (estado_tras pasos s (n + k)).flagISR = true := by
  intro k
  induction k with
  | zero => intro n _ h; exact h
  | succ k ih =>
    intro n hle h
    have hk := ih n (by omega) h
    exact hnb (n + k) (by omega) hk

theorem invoca_slot (OS_IRQ_RUN : estadoOS) (IRQn : Int) (s : OS)
    (hreg : s.isr_vector_usuario IRQn ≠ NULL) :
    invoca OS_IRQ_RUN IRQn s (s.isr_vector_usuario IRQn) :=
  ⟨os_IRQHandler_entrada_trace OS_IRQ_RUN IRQn s,
    fun codigo => os_IRQHandler_eq OS_IRQ_RUN codigo IRQn s hreg⟩

theorem os_InstalarIRQ_ocupado_eq (irq : Int) (usr_isr : Ptr) (s : OS)
    (ho : s.isr_vector_usuario irq ≠ NULL) : os_InstalarIRQ irq usr_isr s = (false, s) := by
  simp [os_InstalarIRQ, ho]

theorem os_InstalarIRQ_vacio_slot (irq : Int) (usr_isr : Ptr) (s : OS)
    (he : s.isr_vector_usuario irq = NULL) :
    (os_InstalarIRQ irq usr_isr s).1 = true ∧
    (os_InstalarIRQ irq usr_isr s).2.isr_vector_usuario irq = usr_isr := by
  simp [os_InstalarIRQ, he, NVIC_ClearPendingIRQ, NVIC_EnableIRQ]

theorem os_RemoverIRQ_vacio_eq (irq : Int) (s : OS)
    (he : s.isr_vector_usuario irq = NULL) : os_RemoverIRQ irq s = (false, s) := by
  simp [os_RemoverIRQ, he]

theorem os_RemoverIRQ_ocupado_slot (irq : Int) (s : OS)
    (ho : s.isr_vector_usuario irq ≠ NULL) :
    (os_RemoverIRQ irq s).1 = true ∧
    (os_RemoverIRQ irq s).2.isr_vector_usuario irq = NULL := by
  simp [os_RemoverIRQ, ho, NVIC_ClearPendingIRQ, NVIC_DisableIRQ]

/-! ## Installing and removing -/

/-- C1: for a valid identifier whose slot is empty and a non-null routine,
`os_InstalarIRQ` returns true, leaves the routine in the slot, and issues
exactly two calls, clear-pending then enable, both for that identifier. -/
theorem os_InstalarIRQ_slot_vacio (CANT_IRQ : Nat) (s : OS) (irq : Int) (h : Ptr)
    (_hv : valido CANT_IRQ irq) (he : s.isr_vector_usuario irq = NULL) (_hh : h ≠ NULL) :
    (os_InstalarIRQ irq h s).1 = true ∧
    (os_InstalarIRQ irq h s).2.isr_vector_usuario irq = h ∧
    (os_InstalarIRQ irq h s).2.trace
      = s.trace ++ [Event.NVIC_ClearPendingIRQ irq, Event.NVIC_EnableIRQ irq] := by
  simp [os_InstalarIRQ, he, NVIC_ClearPendingIRQ, NVIC_EnableIRQ]

theorem os_InstalarIRQ_slot_vacio_witness :
    valido 4 2 ∧ os_inicial.isr_vector_usuario 2 = NULL ∧ (7 : Ptr) ≠ NULL ∧
    (os_InstalarIRQ 2 7 os_inicial).1 = true ∧
    (os_InstalarIRQ 2 7 os_inicial).2.isr_vector_usuario 2 = 7 ∧
    (os_InstalarIRQ 2 7 os_inicial).2.trace
      = os_inicial.trace ++ [Event.NVIC_ClearPendingIRQ 2, Event.NVIC_EnableIRQ 2] :=
  ⟨by decide, by decide, by decide,
    os_InstalarIRQ_slot_vacio 4 os_inicial 2 7 (by decide) (by decide) (by decide)⟩

/-- C2: for a valid identifier whose slot already holds a routine,
`os_InstalarIRQ` returns false and leaves the whole state as it was: the
table, the controller and the record of issued calls are unchanged. -/
theorem os_InstalarIRQ_slot_ocupado (CANT_IRQ : Nat) (s : OS) (irq : Int) (h2 : Ptr)
    (_hv : valido CANT_IRQ irq) (ho : s.isr_vector_usuario irq ≠ NULL) :
    os_InstalarIRQ irq h2 s = (false, s) := by
  simp [os_InstalarIRQ, ho]

theorem os_InstalarIRQ_slot_ocupado_witness :
    valido 4 2 ∧ os_con_rutina.isr_vector_usuario 2 ≠ NULL ∧
    os_InstalarIRQ 2 9 os_con_rutina = (false, os_con_rutina) :=
  ⟨by decide, by decide,
    os_InstalarIRQ_slot_ocupado 4 os_con_rutina 2 9 (by decide) (by decide)⟩

/-- C3: for a valid identifier whose slot holds a routine, `os_RemoverIRQ`
returns true, leaves the slot empty, and issues exactly two calls,
clear-pending then disable, both for that identifier. -/
theorem os_RemoverIRQ_slot_ocupado (CANT_IRQ : Nat) (s : OS) (irq : Int)
    (_hv : valido CANT_IRQ irq) (ho : s.isr_vector_usuario irq ≠ NULL) :
    (os_RemoverIRQ irq s).1 = true ∧
    (os_RemoverIRQ irq s).2.isr_vector_usuario irq = NULL ∧
    (os_RemoverIRQ irq s).2.trace
      = s.trace ++ [Event.NVIC_ClearPendingIRQ irq, Event.NVIC_DisableIRQ irq] := by
  simp [os_RemoverIRQ, ho, NVIC_ClearPendingIRQ, NVIC_DisableIRQ]

theorem os_RemoverIRQ_slot_ocupado_witness :
    valido 4 2 ∧ os_con_rutina.isr_vector_usuario 2 ≠ NULL ∧
    (os_RemoverIRQ 2 os_con_rutina).1 = true ∧
    (os_RemoverIRQ 2 os_con_rutina).2.isr_vector_usuario 2 = NULL ∧
    (os_RemoverIRQ 2 os_con_rutina).2.trace
      = os_con_rutina.trace ++ [Event.NVIC_ClearPendingIRQ 2, Event.NVIC_DisableIRQ 2] :=
  ⟨by decide, by decide,
    os_RemoverIRQ_slot_ocupado 4 os_con_rutina 2 (by decide) (by decide)⟩

/-- C4: for a valid identifier whose slot is empty, `os_RemoverIRQ` returns
false and leaves the whole state as it was: the table, the controller and the
record of issued calls are unchanged. -/
theorem os_RemoverIRQ_slot_vacio (CANT_IRQ : Nat) (s : OS) (irq : Int)
    (_hv : valido CANT_IRQ irq) (he : s.isr_vector_usuario irq = NULL) :
    os_RemoverIRQ irq s = (false, s) := by
  simp [os_RemoverIRQ, he]

theorem os_RemoverIRQ_slot_vacio_witness :
    valido 4 2 ∧ os_inicial.isr_vector_usuario 2 = NULL ∧
    os_RemoverIRQ 2 os_inicial = (false, os_inicial) :=
  ⟨by decide, by decide, os_RemoverIRQ_slot_vacio 4 os_inicial 2 (by decide) (by decide)⟩

/-! ## The dispatch routine -/

/-- C5: state bracketing. For an identifier with a registered routine and any
prior run-state, the state in which the routine starts has run-state
`OS_IRQ_RUN`; whatever code the routine is, if it does not return neither does
`os_IRQHandler`, and if it returns then `os_IRQHandler` returns and the
run-state it leaves is the prior one, whatever the routine did to it. -/
theorem os_IRQHandler_estado (OS_IRQ_RUN : estadoOS) (IRQn : Int) (s : OS)
    (hreg : s.isr_vector_usuario IRQn ≠ NULL) :
    (os_IRQHandler_entrada OS_IRQ_RUN IRQn s).estadoSistema = OS_IRQ_RUN ∧
    ∀ codigo : Codigo,
      (∀ e, codigo (s.isr_vector_usuario IRQn) (os_IRQHandler_entrada OS_IRQ_RUN IRQn s)
            = Except.error e →
          os_IRQHandler OS_IRQ_RUN codigo IRQn s = Except.error e) ∧
      (∀ s2, codigo (s.isr_vector_usuario IRQn) (os_IRQHandler_entrada OS_IRQ_RUN IRQn s)
            = Except.ok s2 →
          ∃ s3, os_IRQHandler OS_IRQ_RUN codigo IRQn s = Except.ok s3 ∧
            s3.estadoSistema = s.estadoSistema) := by
  refine ⟨rfl, fun codigo => ⟨fun e he => ?_, fun s2 h2 => ?_⟩⟩
  · rw [os_IRQHandler_eq OS_IRQ_RUN codigo IRQn s hreg, he]
  · refine ⟨os_IRQHandler_salida s.estadoSistema IRQn s2, ?_, ?_⟩
    · rw [os_IRQHandler_eq OS_IRQ_RUN codigo IRQn s hreg, h2]
    · simp only [os_IRQHandler_salida, os_setEstadoSistema, NVIC_ClearPendingIRQ,
        os_getFlagISR, os_setFlagISR, os_Yield]
      cases s2.flagISR <;> rfl

theorem os_IRQHandler_estado_witness :
    os_con_rutina.isr_vector_usuario 2 ≠ NULL ∧
    (os_IRQHandler_entrada 3 2 os_con_rutina).estadoSistema = 3 ∧
    ∃ s3, os_IRQHandler 3 codigo_ej 2 os_con_rutina = Except.ok s3 ∧
      s3.estadoSistema = os_con_rutina.estadoSistema :=
  ⟨by decide, (os_IRQHandler_estado 3 2 os_con_rutina (by decide)).1,
    ((os_IRQHandler_estado 3 2 os_con_rutina (by decide)).2 codigo_ej).2 _ rfl⟩

/-- C6: deferred reschedule exactness. For a dispatch with a registered
routine, begun with the flag clear, whose routine runs the steps `pasos` and
returns and does not itself clear the flag: if the flag is set at any point of
the routine's execution, `os_IRQHandler` returns with the flag false and has
issued exactly one `os_Yield` itself; if the flag is set at no point after a
step of the routine, it has issued none. -/
theorem os_IRQHandler_flag_diferido (OS_IRQ_RUN : estadoOS) (codigo : Codigo) (IRQn : Int)
    (s : OS) (pasos : List (OS → OS)) (hreg : s.isr_vector_usuario IRQn ≠ NULL)
    (hflag : s.flagISR = false)
    (hcod : codigo (s.isr_vector_usuario IRQn) (os_IRQHandler_entrada OS_IRQ_RUN IRQn s)
      = Except.ok (ejecutar_pasos pasos (os_IRQHandler_entrada OS_IRQ_RUN IRQn s)))
    (hnb : no_borra_flag pasos (os_IRQHandler_entrada OS_IRQ_RUN IRQn s)) :
    ∃ s3, os_IRQHandler OS_IRQ_RUN codigo IRQn s = Except.ok s3 ∧
      (os_IRQHandler_entrada OS_IRQ_RUN IRQn s).trace
        = s.trace ++ os_IRQHandler_antes OS_IRQ_RUN (s.isr_vector_usuario IRQn) ∧
      s3.trace = (ejecutar_pasos pasos (os_IRQHandler_entrada OS_IRQ_RUN IRQn s)).trace
        ++ os_IRQHandler_despues s.estadoSistema IRQn
            (ejecutar_pasos pasos (os_IRQHandler_entrada OS_IRQ_RUN IRQn s)).flagISR ∧
      ((∃ n, n ≤ pasos.length ∧
          (estado_tras pasos (os_IRQHandler_entrada OS_IRQ_RUN IRQn s) n).flagISR = true) →
        s3.flagISR = false ∧
        (os_IRQHandler_antes OS_IRQ_RUN (s.isr_vector_usuario IRQn)
          ++ os_IRQHandler_despues s.estadoSistema IRQn
            (ejecutar_pasos pasos (os_IRQHandler_entrada OS_IRQ_RUN IRQn s)).flagISR).count
          Event.os_Yield = 1) ∧
      ((∀ n, 1 ≤ n → n ≤ pasos.length →
          (estado_tras pasos (os_IRQHandler_entrada OS_IRQ_RUN IRQn s) n).flagISR = false) →
        (os_IRQHandler_antes OS_IRQ_RUN (s.isr_vector_usuario IRQn)
          ++ os_IRQHandler_despues s.estadoSistema IRQn
            (ejecutar_pasos pasos (os_IRQHandler_entrada OS_IRQ_RUN IRQn s)).flagISR).count
          Event.os_Yield = 0) := by
  refine ⟨os_IRQHandler_salida s.estadoSistema IRQn
    (ejecutar_pasos pasos (os_IRQHandler_entrada OS_IRQ_RUN IRQn s)), ?_, ?_, ?_, ?_, ?_⟩
  · rw [os_IRQHandler_eq OS_IRQ_RUN codigo IRQn s hreg, hcod]
  · exact os_IRQHandler_entrada_trace _ _ _
  · exact os_IRQHandler_salida_trace _ _ _
  · rintro ⟨n, hn, hset⟩
    have hfin := flag_sigue_activo pasos _ hnb (pasos.length - n) n (by omega) hset
    rw [show n + (pasos.length - n) = pasos.length by omega, estado_tras_length] at hfin
    refine ⟨os_IRQHandler_salida_flag _ _ _, ?_⟩
    simp [hfin, os_IRQHandler_antes, os_IRQHandler_despues]
  · intro hnunca
    have hfin : (ejecutar_pasos pasos (os_IRQHandler_entrada OS_IRQ_RUN IRQn s)).flagISR
        = false := by
      cases hp : pasos with
      | nil => exact hflag
      | cons paso resto =>
        have h := hnunca pasos.length (by simp [hp]) (Nat.le_refl _)
        rw [estado_tras_length] at h
        rw [← hp]; exact h
    simp [hfin, os_IRQHandler_antes, os_IRQHandler_despues]

theorem os_IRQHandler_flag_diferido_witness :
    os_con_rutina.isr_vector_usuario 2 ≠ NULL ∧ os_con_rutina.flagISR = false ∧
    no_borra_flag pasos_ej (os_IRQHandler_entrada 3 2 os_con_rutina) ∧
    (estado_tras pasos_ej (os_IRQHandler_entrada 3 2 os_con_rutina) 2).flagISR = true ∧
    ∃ s3, os_IRQHandler 3 codigo_ej 2 os_con_rutina = Except.ok s3 ∧
      s3.flagISR = false ∧
      (os_IRQHandler_antes 3 7 ++ os_IRQHandler_despues 1 2 true).count Event.os_Yield = 1 ∧
      s3.trace = os_con_rutina.trace ++
        [Event.os_getEstadoSistema, Event.os_setEstadoSistema 3, Event.funcion_usuario 7,
         Event.os_setEstadoSistema 99, Event.os_setFlagISR true,
         Event.os_setEstadoSistema 1, Event.NVIC_ClearPendingIRQ 2, Event.os_getFlagISR,
         Event.os_setFlagISR false, Event.os_Yield] :=
  ⟨by decide, by decide, by decide, by decide,
    match os_IRQHandler_flag_diferido 3 codigo_ej 2 os_con_rutina pasos_ej
      (by decide) (by decide) rfl (by decide) with
    | ⟨s3, h3, _, ht, hset, _⟩ =>
      ⟨s3, h3, (hset ⟨2, by decide, by decide⟩).1, (hset ⟨2, by decide, by decide⟩).2,
        ht.trans rfl⟩⟩

/-- C7: for a dispatch with a registered routine that returns, `os_IRQHandler`
issues no clear-pending before the routine runs; after the routine has returned
it issues clear-pending for `IRQn` exactly once and for no other identifier,
and no reschedule request precedes it. -/
theorem os_IRQHandler_clear_pending (OS_IRQ_RUN : estadoOS) (codigo : Codigo) (IRQn : Int)
    (s s2 : OS) (hreg : s.isr_vector_usuario IRQn ≠ NULL)
    (hret : codigo (s.isr_vector_usuario IRQn) (os_IRQHandler_entrada OS_IRQ_RUN IRQn s)
      = Except.ok s2) :
    ∃ s3, os_IRQHandler OS_IRQ_RUN codigo IRQn s = Except.ok s3 ∧
      (os_IRQHandler_entrada OS_IRQ_RUN IRQn s).trace
        = s.trace ++ os_IRQHandler_antes OS_IRQ_RUN (s.isr_vector_usuario IRQn) ∧
      s3.trace = s2.trace ++ os_IRQHandler_despues s.estadoSistema IRQn s2.flagISR ∧
      (∀ j, Event.NVIC_ClearPendingIRQ j ∉
        os_IRQHandler_antes OS_IRQ_RUN (s.isr_vector_usuario IRQn)) ∧
      (os_IRQHandler_despues s.estadoSistema IRQn s2.flagISR).count
        (Event.NVIC_ClearPendingIRQ IRQn) = 1 ∧
      (∀ j, j ≠ IRQn → Event.NVIC_ClearPendingIRQ j ∉
        os_IRQHandler_despues s.estadoSistema IRQn s2.flagISR) ∧
      ∃ a b, os_IRQHandler_despues s.estadoSistema IRQn s2.flagISR
          = a ++ Event.NVIC_ClearPendingIRQ IRQn :: b ∧
        Event.os_Yield ∉ a ∧
        (∀ j, Event.NVIC_ClearPendingIRQ j ∉ a) ∧ (∀ j, Event.NVIC_ClearPendingIRQ j ∉ b) := by
  refine ⟨os_IRQHandler_salida s.estadoSistema IRQn s2, ?_, ?_, ?_, ?_, ?_, ?_, ?_⟩
  · rw [os_IRQHandler_eq OS_IRQ_RUN codigo IRQn s hreg, hret]
  · exact os_IRQHandler_entrada_trace _ _ _
  · exact os_IRQHandler_salida_trace _ _ _
  · intro j
    simp [os_IRQHandler_antes]
  · cases hf : s2.flagISR <;> simp [os_IRQHandler_despues]
  · intro j hj
    cases hf : s2.flagISR <;> simp [os_IRQHandler_despues, hj]
  · refine ⟨[Event.os_setEstadoSistema s.estadoSistema],
      Event.os_getFlagISR ::
        (if s2.flagISR then [Event.os_setFlagISR false, Event.os_Yield] else []), ?_, ?_, ?_, ?_⟩
    · simp [os_IRQHandler_despues]
    · simp
    · intro j
      simp
    · intro j
      cases hf : s2.flagISR <;> simp

theorem os_IRQHandler_clear_pending_witness :
    os_con_rutina.isr_vector_usuario 2 ≠ NULL ∧
    ∃ s3, os_IRQHandler 3 codigo_ej 2 os_con_rutina = Except.ok s3 ∧
      s3.trace = os_con_rutina.trace ++
        [Event.os_getEstadoSistema, Event.os_setEstadoSistema 3, Event.funcion_usuario 7,
         Event.os_setEstadoSistema 99, Event.os_setFlagISR true,
         Event.os_setEstadoSistema 1, Event.NVIC_ClearPendingIRQ 2, Event.os_getFlagISR,
         Event.os_setFlagISR false, Event.os_Yield] ∧
      (os_IRQHandler_despues 1 2 true).count (Event.NVIC_ClearPendingIRQ 2) = 1 :=
  ⟨by decide,
    match os_IRQHandler_clear_pending 3 codigo_ej 2 os_con_rutina _ (by decide) rfl with
    | ⟨s3, h3, _, ht, _, hc, _, _⟩ => ⟨s3, h3, ht.trans rfl, hc⟩⟩

/-! ## Sequences of calls -/

/-- C8: from an empty table, for a valid identifier and non-null routines `h`
and `h2`: installing `h` returns true and a dispatch then invokes `h`, once;
installing `h2` on top returns false and changes nothing, and a dispatch still
invokes `h`, once, and issues no call of a different routine `h2`. -/
theorem instalar_dos_veces_invoca_primera (CANT_IRQ : Nat) (OS_IRQ_RUN : estadoOS) (s : OS)
    (irq : Int) (h h2 : Ptr) (hvac : tabla_vacia CANT_IRQ s) (hv : valido CANT_IRQ irq)
    (hh : h ≠ NULL) (_hh2 : h2 ≠ NULL) :
    (os_InstalarIRQ irq h s).1 = true ∧
    invoca OS_IRQ_RUN irq (os_InstalarIRQ irq h s).2 h ∧
    (∀ e f, (os_IRQHandler_antes OS_IRQ_RUN h ++ os_IRQHandler_despues e irq f).count
      (Event.funcion_usuario h) = 1) ∧
    (os_InstalarIRQ irq h2 (os_InstalarIRQ irq h s).2).1 = false ∧
    (os_InstalarIRQ irq h2 (os_InstalarIRQ irq h s).2).2 = (os_InstalarIRQ irq h s).2 ∧
    invoca OS_IRQ_RUN irq (os_InstalarIRQ irq h2 (os_InstalarIRQ irq h s).2).2 h ∧
    (h2 ≠ h → ∀ e f, Event.funcion_usuario h2 ∉
      os_IRQHandler_antes OS_IRQ_RUN h ++ os_IRQHandler_despues e irq f) := by
  have he : s.isr_vector_usuario irq = NULL := by
    have := hvac irq.toNat (by have := hv.1; have := hv.2; omega)
    rwa [Int.toNat_of_nonneg hv.1] at this
  have hslot : (os_InstalarIRQ irq h s).2.isr_vector_usuario irq = h :=
    (os_InstalarIRQ_vacio_slot irq h s he).2
  have hocc : (os_InstalarIRQ irq h s).2.isr_vector_usuario irq ≠ NULL := by
    rw [hslot]; exact hh
  have h2nd : os_InstalarIRQ irq h2 (os_InstalarIRQ irq h s).2
      = (false, (os_InstalarIRQ irq h s).2) :=
    os_InstalarIRQ_ocupado_eq irq h2 _ hocc
  have hinv : invoca OS_IRQ_RUN irq (os_InstalarIRQ irq h s).2 h := by
    have := invoca_slot OS_IRQ_RUN irq (os_InstalarIRQ irq h s).2 hocc
    rwa [hslot] at this
  refine ⟨?_, hinv, ?_, ?_, ?_, ?_, ?_⟩
  · exact (os_InstalarIRQ_vacio_slot irq h s he).1
  · intro e f
    cases f <;> simp [os_IRQHandler_antes, os_IRQHandler_despues]
  · rw [h2nd]
  · rw [h2nd]
  · rw [h2nd]; exact hinv
  · intro hne e f
    cases f <;> simp [os_IRQHandler_antes, os_IRQHandler_despues, hne]

theorem instalar_dos_veces_invoca_primera_witness :
    tabla_vacia 4 os_inicial ∧ valido 4 2 ∧ (7 : Ptr) ≠ NULL ∧ (9 : Ptr) ≠ NULL ∧
    (os_InstalarIRQ 2 7 os_inicial).1 = true ∧
    invoca 3 2 (os_InstalarIRQ 2 7 os_inicial).2 7 ∧
    (os_InstalarIRQ 2 9 (os_InstalarIRQ 2 7 os_inicial).2).1 = false ∧
    invoca 3 2 (os_InstalarIRQ 2 9 (os_InstalarIRQ 2 7 os_inicial).2).2 7 ∧
    Event.funcion_usuario 9 ∉ os_IRQHandler_antes 3 7 ++ os_IRQHandler_despues 1 2 true :=
  have t := instalar_dos_veces_invoca_primera 4 3 os_inicial 2 7 9
    (by decide) (by decide) (by decide) (by decide)
  ⟨by decide, by decide, by decide, by decide, t.1, t.2.1, t.2.2.2.1, t.2.2.2.2.2.1,
    t.2.2.2.2.2.2 (by decide) 1 true⟩

/-- C9: re-registration round trip. For a valid identifier with an empty slot
and non-null routines `h1`, `h2`, the calls install `h1`, remove, install `h2`
return true, true, true, leave `h2` in the slot, and the next dispatch invokes
`h2`, once, and issues no call of a different routine `h1`. -/
theorem instalar_remover_instalar (CANT_IRQ : Nat) (OS_IRQ_RUN : estadoOS) (s : OS)
    (irq : Int) (h1 h2 : Ptr) (_hv : valido CANT_IRQ irq)
    (he : s.isr_vector_usuario irq = NULL) (hh1 : h1 ≠ NULL) (hh2 : h2 ≠ NULL) :
    (os_InstalarIRQ irq h1 s).1 = true ∧
    (os_RemoverIRQ irq (os_InstalarIRQ irq h1 s).2).1 = true ∧
    (os_InstalarIRQ irq h2 (os_RemoverIRQ irq (os_InstalarIRQ irq h1 s).2).2).1 = true ∧
    (os_InstalarIRQ irq h2
      (os_RemoverIRQ irq (os_InstalarIRQ irq h1 s).2).2).2.isr_vector_usuario irq = h2 ∧
    invoca OS_IRQ_RUN irq
      (os_InstalarIRQ irq h2 (os_RemoverIRQ irq (os_InstalarIRQ irq h1 s).2).2).2 h2 ∧
    (∀ e f, (os_IRQHandler_antes OS_IRQ_RUN h2 ++ os_IRQHandler_despues e irq f).count
      (Event.funcion_usuario h2) = 1) ∧
    (h1 ≠ h2 → ∀ e f, Event.funcion_usuario h1 ∉
      os_IRQHandler_antes OS_IRQ_RUN h2 ++ os_IRQHandler_despues e irq f) := by
  have i1 := os_InstalarIRQ_vacio_slot irq h1 s he
  have hocc : (os_InstalarIRQ irq h1 s).2.isr_vector_usuario irq ≠ NULL := by
    rw [i1.2]; exact hh1
  have r := os_RemoverIRQ_ocupado_slot irq (os_InstalarIRQ irq h1 s).2 hocc
  have i2 := os_InstalarIRQ_vacio_slot irq h2 (os_RemoverIRQ irq (os_InstalarIRQ irq h1 s).2).2 r.2
  have hocc2 : (os_InstalarIRQ irq h2
      (os_RemoverIRQ irq (os_InstalarIRQ irq h1 s).2).2).2.isr_vector_usuario irq ≠ NULL := by
    rw [i2.2]; exact hh2
  refine ⟨i1.1, r.1, i2.1, i2.2, ?_, ?_, ?_⟩
  · have := invoca_slot OS_IRQ_RUN irq _ hocc2
    rwa [i2.2] at this
  · intro e f
    cases f <;> simp [os_IRQHandler_antes, os_IRQHandler_despues]
  · intro hne e f
    cases f <;> simp [os_IRQHandler_antes, os_IRQHandler_despues, hne]

theorem instalar_remover_instalar_witness :
    valido 4 2 ∧ os_inicial.isr_vector_usuario 2 = NULL ∧ (7 : Ptr) ≠ NULL ∧ (9 : Ptr) ≠ NULL ∧
    (os_InstalarIRQ 2 7 os_inicial).1 = true ∧
    (os_RemoverIRQ 2 (os_InstalarIRQ 2 7 os_inicial).2).1 = true ∧
    (os_InstalarIRQ 2 9 (os_RemoverIRQ 2 (os_InstalarIRQ 2 7 os_inicial).2).2).1 = true ∧
    (os_InstalarIRQ 2 9
      (os_RemoverIRQ 2 (os_InstalarIRQ 2 7 os_inicial).2).2).2.isr_vector_usuario 2 = 9 ∧
    invoca 3 2 (os_InstalarIRQ 2 9 (os_RemoverIRQ 2 (os_InstalarIRQ 2 7 os_inicial).2).2).2 9 ∧
    Event.funcion_usuario 7 ∉ os_IRQHandler_antes 3 9 ++ os_IRQHandler_despues 1 2 true :=
  have t := instalar_remover_instalar 4 3 os_inicial 2 7 9
    (by decide) (by decide) (by decide) (by decide)
  ⟨by decide, by decide, by decide, by decide, t.1, t.2.1, t.2.2.1, t.2.2.2.1, t.2.2.2.2.1,
    t.2.2.2.2.2.2 (by decide) 1 true⟩

/-- C10: idempotence of failure. From every state, for a valid identifier and
non-null routines `h`, `h2`: a second `os_InstalarIRQ` right after a first one
returns false, and a second `os_RemoverIRQ` right after a first one returns
false, whatever the first call returned. -/
theorem segunda_llamada_falla (CANT_IRQ : Nat) (s : OS) (irq : Int) (h h2 : Ptr)
    (_hv : valido CANT_IRQ irq) (hh : h ≠ NULL) (_hh2 : h2 ≠ NULL) :
    (os_InstalarIRQ irq h2 (os_InstalarIRQ irq h s).2).1 = false ∧
    (os_RemoverIRQ irq (os_RemoverIRQ irq s).2).1 = false := by
  constructor
  · have hocc : (os_InstalarIRQ irq h s).2.isr_vector_usuario irq ≠ NULL := by
      by_cases he : s.isr_vector_usuario irq = NULL
      · rw [(os_InstalarIRQ_vacio_slot irq h s he).2]; exact hh
      · rw [os_InstalarIRQ_ocupado_eq irq h s he]; exact he
    rw [os_InstalarIRQ_ocupado_eq irq h2 _ hocc]
  · have hemp : (os_RemoverIRQ irq s).2.isr_vector_usuario irq = NULL := by
      by_cases he : s.isr_vector_usuario irq = NULL
      · rw [os_RemoverIRQ_vacio_eq irq s he]; exact he
      · exact (os_RemoverIRQ_ocupado_slot irq s he).2
    rw [os_RemoverIRQ_vacio_eq irq _ hemp]

theorem segunda_llamada_falla_witness :
    valido 4 2 ∧ (7 : Ptr) ≠ NULL ∧ (9 : Ptr) ≠ NULL ∧
    (os_InstalarIRQ 2 9 (os_InstalarIRQ 2 7 os_inicial).2).1 = false ∧
    (os_RemoverIRQ 2 (os_RemoverIRQ 2 os_inicial).2).1 = false :=
  ⟨by decide, by decide, by decide,
    segunda_llamada_falla 4 os_inicial 2 7 9 (by decide) (by decide) (by decide)⟩

/-! ## Invariant of the registration interface -/

theorem armada_sii_registrada_paso (CANT_IRQ : Nat) (c : Llamada)
    (hc : Llamada.correcta CANT_IRQ c) (s : OS) (hs : armada_sii_registrada CANT_IRQ s) :
    armada_sii_registrada CANT_IRQ (c.ejecutar s) := by
  intro j hj
  cases c with
  | instalar irq h =>
    have hh : h ≠ NULL := hc.2
    by_cases he : s.isr_vector_usuario irq = NULL
    · by_cases hji : j = irq
      · simp [Llamada.ejecutar, os_InstalarIRQ, he, NVIC_ClearPendingIRQ, NVIC_EnableIRQ,
          hji, hh]
      · have := hs j hj
        simpa [Llamada.ejecutar, os_InstalarIRQ, he, NVIC_ClearPendingIRQ, NVIC_EnableIRQ,
          hji] using this
    · simpa [Llamada.ejecutar, os_InstalarIRQ_ocupado_eq irq h s he] using hs j hj
  | remover irq =>
    by_cases he : s.isr_vector_usuario irq = NULL
    · simpa [Llamada.ejecutar, os_RemoverIRQ_vacio_eq irq s he] using hs j hj
    · by_cases hji : j = irq
      · simp [Llamada.ejecutar, os_RemoverIRQ, he, NVIC_ClearPendingIRQ, NVIC_DisableIRQ, hji]
      · have := hs j hj
        simpa [Llamada.ejecutar, os_RemoverIRQ, he, NVIC_ClearPendingIRQ, NVIC_DisableIRQ,
          hji] using this

theorem armada_sii_registrada_ejecutar (CANT_IRQ : Nat) (cs : List Llamada) :
    ∀ s : OS, (∀ c ∈ cs, Llamada.correcta CANT_IRQ c) → armada_sii_registrada CANT_IRQ s →
      armada_sii_registrada CANT_IRQ (ejecutar cs s) := by
  induction cs with
  | nil => intro s _ hs; exact hs
  | cons c cs ih =>
    intro s hcs hs
    have hc := hcs c (List.mem_cons_self c cs)
    have hrest : ∀ d ∈ cs, Llamada.correcta CANT_IRQ d :=
      fun d hd => hcs d (List.mem_cons_of_mem c hd)
    exact ih (c.ejecutar s) hrest (armada_sii_registrada_paso CANT_IRQ c hc s hs)

theorem armada_sii_registrada_inicial (CANT_IRQ : Nat) (s : OS)
    (hvac : tabla_vacia CANT_IRQ s) (hdis : lineas_deshabilitadas CANT_IRQ s) :
    armada_sii_registrada CANT_IRQ s := by
  intro irq hv
  have hlt : irq.toNat < CANT_IRQ := by have := hv.1; have := hv.2; omega
  have h1 := hvac irq.toNat hlt
  have h2 := hdis irq.toNat hlt
  rw [Int.toNat_of_nonneg hv.1] at h1 h2
  simp [h1, h2]

/-- C11: armed implies registered. From a state with the table empty and every
line disabled, after any finite sequence of installs of non-null routines and
removes on valid identifiers, a valid line is enabled at the controller exactly
if its slot holds a routine; so the dispatch of an enabled line finds a routine
in the slot and invokes it. -/
theorem armada_implica_registrada (CANT_IRQ : Nat) (OS_IRQ_RUN : estadoOS) (s : OS)
    (cs : List Llamada) (hvac : tabla_vacia CANT_IRQ s)
    (hdis : lineas_deshabilitadas CANT_IRQ s)
    (hcs : ∀ c ∈ cs, Llamada.correcta CANT_IRQ c) :
    ∀ irq : Int, valido CANT_IRQ irq →
      ((ejecutar cs s).nvic_enabled irq = true ↔
        (ejecutar cs s).isr_vector_usuario irq ≠ NULL) ∧
      ((ejecutar cs s).nvic_enabled irq = true →
        invoca OS_IRQ_RUN irq (ejecutar cs s) ((ejecutar cs s).isr_vector_usuario irq)) := by
  intro irq hv
  have hinv := armada_sii_registrada_ejecutar CANT_IRQ cs s hcs
    (armada_sii_registrada_inicial CANT_IRQ s hvac hdis) irq hv
  exact ⟨hinv, fun hen => invoca_slot OS_IRQ_RUN irq _ (hinv.1 hen)⟩

theorem armada_implica_registrada_witness :
    tabla_vacia 4 os_inicial ∧ lineas_deshabilitadas 4 os_inicial ∧
    (∀ c ∈ llamadas_ej, Llamada.correcta 4 c) ∧ valido 4 1 ∧ valido 4 2 ∧
    ((ejecutar llamadas_ej os_inicial).nvic_enabled 1 = true ↔
      (ejecutar llamadas_ej os_inicial).isr_vector_usuario 1 ≠ NULL) ∧
    ((ejecutar llamadas_ej os_inicial).nvic_enabled 2 = true ↔
      (ejecutar llamadas_ej os_inicial).isr_vector_usuario 2 ≠ NULL) ∧
    (ejecutar llamadas_ej os_inicial).nvic_enabled 1 = true ∧
    (ejecutar llamadas_ej os_inicial).nvic_enabled 2 = false ∧
    invoca 3 1 (ejecutar llamadas_ej os_inicial) 9 :=
  have t := armada_implica_registrada 4 3 os_inicial llamadas_ej
    (by decide) (by decide) (by decide)
  ⟨by decide, by decide, by decide, by decide, by decide,
    (t 1 (by decide)).1, (t 2 (by decide)).1, by decide, by decide,
    (t 1 (by decide)).2 (by decide)⟩

/-! ## Identifiers outside the table -/

/-- C12, as stated, fails: on a table of four slots with zeroed memory behind
it, `os_InstalarIRQ(5, 7)` returns true, writes the word behind the table and
issues clear-pending(5) and enable(5); `os_RemoverIRQ(5)` then returns true as
well and issues clear-pending(5) and disable(5). -/
theorem fuera_de_rango_contraejemplo :
    ¬ valido 4 5 ∧
    (os_InstalarIRQ 5 7 os_inicial).1 = true ∧
    (os_InstalarIRQ 5 7 os_inicial).2.isr_vector_usuario 5 = 7 ∧
    (os_InstalarIRQ 5 7 os_inicial).2.trace
      = [Event.NVIC_ClearPendingIRQ 5, Event.NVIC_EnableIRQ 5] ∧
    (os_RemoverIRQ 5 (os_InstalarIRQ 5 7 os_inicial).2).1 = true ∧
    (os_RemoverIRQ 5 (os_InstalarIRQ 5 7 os_inicial).2).2.trace
      = [Event.NVIC_ClearPendingIRQ 5, Event.NVIC_EnableIRQ 5,
         Event.NVIC_ClearPendingIRQ 5, Event.NVIC_DisableIRQ 5] := by
  refine ⟨by decide, rfl, rfl, rfl, rfl, rfl⟩

/-- C12, amended: the two functions check the slot, not the range. For every
identifier inside `[0, CANT_IRQ)` they report an error exactly on a slot
conflict (install: slot occupied; remove: slot empty), and a call that reports
an error leaves the whole state unchanged and so issues no controller call. An
identifier outside the range is not rejected as such: on a table of four slots
with a null word behind it, `os_InstalarIRQ(5, 7)` returns true and issues
clear-pending(5) and enable(5). -/
theorem error_solo_por_slot (CANT_IRQ : Nat) (s : OS) (irq : Int) (h : Ptr)
    (_hv : valido CANT_IRQ irq) :
    ((os_InstalarIRQ irq h s).1 = false ↔ s.isr_vector_usuario irq ≠ NULL) ∧
    ((os_InstalarIRQ irq h s).1 = false → os_InstalarIRQ irq h s = (false, s)) ∧
    ((os_RemoverIRQ irq s).1 = false ↔ s.isr_vector_usuario irq = NULL) ∧
    ((os_RemoverIRQ irq s).1 = false → os_RemoverIRQ irq s = (false, s)) ∧
    (¬ valido 4 5 ∧ (os_InstalarIRQ 5 7 os_inicial).1 = true ∧
      (os_InstalarIRQ 5 7 os_inicial).2.trace
        = [Event.NVIC_ClearPendingIRQ 5, Event.NVIC_EnableIRQ 5]) := by
  have hi : (os_InstalarIRQ irq h s).1 = false ↔ s.isr_vector_usuario irq ≠ NULL := by
    by_cases he : s.isr_vector_usuario irq = NULL <;> simp [os_InstalarIRQ, he]
  have hr : (os_RemoverIRQ irq s).1 = false ↔ s.isr_vector_usuario irq = NULL := by
    by_cases he : s.isr_vector_usuario irq = NULL <;> simp [os_RemoverIRQ, he]
  exact ⟨hi, fun hf => os_InstalarIRQ_ocupado_eq irq h s (hi.1 hf),
    hr, fun hf => os_RemoverIRQ_vacio_eq irq s (hr.1 hf), by decide, rfl, rfl⟩

theorem error_solo_por_slot_witness :
    valido 4 2 ∧
    ((os_InstalarIRQ 2 9 os_con_rutina).1 = false ↔ os_con_rutina.isr_vector_usuario 2 ≠ NULL) ∧
    os_InstalarIRQ 2 9 os_con_rutina = (false, os_con_rutina) ∧
    ((os_RemoverIRQ 2 os_con_rutina).1 = false ↔ os_con_rutina.isr_vector_usuario 2 = NULL) ∧
    (os_RemoverIRQ 2 os_con_rutina).1 = true :=
  have t := error_solo_por_slot 4 os_con_rutina 2 9 (by decide)
  ⟨by decide, t.1, t.2.1 (t.1.2 (by decide)), t.2.2.1, by decide⟩

/-! ## Dispatch on an empty slot -/

/-- C14 fails on the stubs of lines 142-143: the stub of the SPI vector passes
the identifier of I2C1 and the stub of the I2C1 vector passes the identifier of
SPI, while their neighbours I2C0 and ADC1 pass their own; so the SPI vector
dispatches the I2C1 slot and the I2C1 vector dispatches the SPI slot. -/
theorem stubs_SPI_I2C1_transpuestos :
    stub_IRQn Vector_IRQ.SPI_IRQHandler = LPC43XX_IRQn_Type.I2C1_IRQn ∧
    stub_IRQn Vector_IRQ.I2C1_IRQHandler = LPC43XX_IRQn_Type.SPI_INT_IRQn ∧
    stub_IRQn Vector_IRQ.I2C0_IRQHandler = LPC43XX_IRQn_Type.I2C0_IRQn ∧
    stub_IRQn Vector_IRQ.ADC1_IRQHandler = LPC43XX_IRQn_Type.ADC1_IRQn ∧
    (∀ (OS_IRQ_RUN : estadoOS) (codigo : Codigo) (valor : LPC43XX_IRQn_Type → Int) (s : OS),
      vector_stub OS_IRQ_RUN codigo valor Vector_IRQ.SPI_IRQHandler s
        = os_IRQHandler OS_IRQ_RUN codigo (valor LPC43XX_IRQn_Type.I2C1_IRQn) s) ∧
    (∀ (OS_IRQ_RUN : estadoOS) (codigo : Codigo) (valor : LPC43XX_IRQn_Type → Int) (s : OS),
      vector_stub OS_IRQ_RUN codigo valor Vector_IRQ.I2C1_IRQHandler s
        = os_IRQHandler OS_IRQ_RUN codigo (valor LPC43XX_IRQn_Type.SPI_INT_IRQn) s) :=
  ⟨rfl, rfl, rfl, rfl, fun _ _ _ _ => rfl, fun _ _ _ _ => rfl⟩

/-! ## Order and frame of the dispatch routine -/

/-- C15: restore before reschedule. For a dispatch with a registered routine
that returns, `os_IRQHandler` reads the flag exactly once, after it has
restored the run-state; it issues a reschedule request exactly if the flag it
read is set, and then the state in which `os_Yield` is called has the
pre-dispatch run-state, the flag false, and the restore, the clear-pending for
`IRQn` and the clearing of the flag already recorded. -/
theorem os_IRQHandler_orden (OS_IRQ_RUN : estadoOS) (codigo : Codigo) (IRQn : Int)
    (s s2 : OS) (hreg : s.isr_vector_usuario IRQn ≠ NULL)
    (hret : codigo (s.isr_vector_usuario IRQn) (os_IRQHandler_entrada OS_IRQ_RUN IRQn s)
      = Except.ok s2) :
    ∃ s3, os_IRQHandler OS_IRQ_RUN codigo IRQn s = Except.ok s3 ∧
      (os_IRQHandler_entrada OS_IRQ_RUN IRQn s).trace
        = s.trace ++ os_IRQHandler_antes OS_IRQ_RUN (s.isr_vector_usuario IRQn) ∧
      s3.trace = s2.trace ++ os_IRQHandler_despues s.estadoSistema IRQn s2.flagISR ∧
      (os_IRQHandler_antes OS_IRQ_RUN (s.isr_vector_usuario IRQn)
        ++ os_IRQHandler_despues s.estadoSistema IRQn s2.flagISR).count Event.os_getFlagISR = 1 ∧
      (∃ b, os_IRQHandler_despues s.estadoSistema IRQn s2.flagISR
          = [Event.os_setEstadoSistema s.estadoSistema, Event.NVIC_ClearPendingIRQ IRQn,
              Event.os_getFlagISR] ++ b ∧ Event.os_getFlagISR ∉ b) ∧
      (Event.os_Yield ∈ os_IRQHandler_antes OS_IRQ_RUN (s.isr_vector_usuario IRQn)
          ++ os_IRQHandler_despues s.estadoSistema IRQn s2.flagISR ↔ s2.flagISR = true) ∧
      (s2.flagISR = true →
        ∃ sy, s3 = os_Yield sy ∧
          sy.estadoSistema = s.estadoSistema ∧
          sy.flagISR = false ∧
          sy.trace = s2.trace ++
            [Event.os_setEstadoSistema s.estadoSistema, Event.NVIC_ClearPendingIRQ IRQn,
              Event.os_getFlagISR, Event.os_setFlagISR false]) := by
  refine ⟨os_IRQHandler_salida s.estadoSistema IRQn s2, ?_, ?_, ?_, ?_, ?_, ?_, ?_⟩
  · rw [os_IRQHandler_eq OS_IRQ_RUN codigo IRQn s hreg, hret]
  · exact os_IRQHandler_entrada_trace _ _ _
  · exact os_IRQHandler_salida_trace _ _ _
  · cases hf : s2.flagISR <;> simp [os_IRQHandler_antes, os_IRQHandler_despues]
  · refine ⟨if s2.flagISR then [Event.os_setFlagISR false, Event.os_Yield] else [], rfl, ?_⟩
    cases hf : s2.flagISR <;> simp
  · cases hf : s2.flagISR <;> simp [os_IRQHandler_antes, os_IRQHandler_despues]
  · intro hf
    refine ⟨os_setFlagISR false (os_getFlagISR (NVIC_ClearPendingIRQ IRQn
      (os_setEstadoSistema s.estadoSistema s2))).2, ?_, rfl, rfl, ?_⟩
    · simp [os_IRQHandler_salida, os_getFlagISR, NVIC_ClearPendingIRQ, os_setEstadoSistema, hf]
    · simp [os_setFlagISR, os_getFlagISR, NVIC_ClearPendingIRQ, os_setEstadoSistema]

theorem os_IRQHandler_orden_witness :
    os_con_rutina.isr_vector_usuario 2 ≠ NULL ∧
    ∃ s3, os_IRQHandler 3 codigo_ej 2 os_con_rutina = Except.ok s3 ∧
      ∃ sy, s3 = os_Yield sy ∧ sy.estadoSistema = 1 ∧ sy.flagISR = false ∧
        sy.trace = os_con_rutina.trace ++
          [Event.os_getEstadoSistema, Event.os_setEstadoSistema 3, Event.funcion_usuario 7,
           Event.os_setEstadoSistema 99, Event.os_setFlagISR true,
           Event.os_setEstadoSistema 1, Event.NVIC_ClearPendingIRQ 2, Event.os_getFlagISR,
           Event.os_setFlagISR false] :=
  ⟨by decide,
    match os_IRQHandler_orden 3 codigo_ej 2 os_con_rutina _ (by decide) rfl with
    | ⟨s3, h3, _, _, _, _, _, hy⟩ =>
      match hy rfl with
      | ⟨sy, e, h1, h2, ht⟩ => ⟨s3, h3, sy, e, h1, h2, ht.trans rfl⟩⟩

/-- C16: the dispatch routine does not change the registration table. Its own
steps leave every slot as it was before and after the user routine, and it
issues no enable or disable call; so for a registered routine that returns
without changing the table, the table after `os_IRQHandler` equals the table
before it, slot by slot. -/
theorem os_IRQHandler_tabla (OS_IRQ_RUN : estadoOS) (codigo : Codigo) (IRQn : Int)
    (s s2 : OS) (hreg : s.isr_vector_usuario IRQn ≠ NULL)
    (hret : codigo (s.isr_vector_usuario IRQn) (os_IRQHandler_entrada OS_IRQ_RUN IRQn s)
      = Except.ok s2)
    (htab : ∀ j, s2.isr_vector_usuario j
      = (os_IRQHandler_entrada OS_IRQ_RUN IRQn s).isr_vector_usuario j) :
    ∃ s3, os_IRQHandler OS_IRQ_RUN codigo IRQn s = Except.ok s3 ∧
      (∀ j, s3.isr_vector_usuario j = s.isr_vector_usuario j) ∧
      (∀ j, (os_IRQHandler_entrada OS_IRQ_RUN IRQn s).isr_vector_usuario j
        = s.isr_vector_usuario j) ∧
      (∀ j, s3.isr_vector_usuario j = s2.isr_vector_usuario j) ∧
      (os_IRQHandler_entrada OS_IRQ_RUN IRQn s).trace
        = s.trace ++ os_IRQHandler_antes OS_IRQ_RUN (s.isr_vector_usuario IRQn) ∧
      s3.trace = s2.trace ++ os_IRQHandler_despues s.estadoSistema IRQn s2.flagISR ∧
      (∀ j, Event.NVIC_EnableIRQ j ∉ os_IRQHandler_antes OS_IRQ_RUN (s.isr_vector_usuario IRQn)
        ++ os_IRQHandler_despues s.estadoSistema IRQn s2.flagISR) ∧
      (∀ j, Event.NVIC_DisableIRQ j ∉ os_IRQHandler_antes OS_IRQ_RUN (s.isr_vector_usuario IRQn)
        ++ os_IRQHandler_despues s.estadoSistema IRQn s2.flagISR) ∧
      (∀ j, s3.nvic_enabled j = s2.nvic_enabled j) := by
  have hsal : ∀ j, (os_IRQHandler_salida s.estadoSistema IRQn s2).isr_vector_usuario j
      = s2.isr_vector_usuario j := by
    intro j
    simp only [os_IRQHandler_salida, os_setEstadoSistema, NVIC_ClearPendingIRQ,
      os_getFlagISR, os_setFlagISR, os_Yield]
    cases s2.flagISR <;> rfl
  have hent : ∀ j, (os_IRQHandler_entrada OS_IRQ_RUN IRQn s).isr_vector_usuario j
      = s.isr_vector_usuario j := fun _ => rfl
  refine ⟨os_IRQHandler_salida s.estadoSistema IRQn s2, ?_, ?_, hent, hsal, ?_, ?_, ?_, ?_, ?_⟩
  · rw [os_IRQHandler_eq OS_IRQ_RUN codigo IRQn s hreg, hret]
  · intro j
    rw [hsal j, htab j, hent j]
  · exact os_IRQHandler_entrada_trace _ _ _
  · exact os_IRQHandler_salida_trace _ _ _
  · intro j
    cases hf : s2.flagISR <;> simp [os_IRQHandler_antes, os_IRQHandler_despues]
  · intro j
    cases hf : s2.flagISR <;> simp [os_IRQHandler_antes, os_IRQHandler_despues]
  · intro j
    simp only [os_IRQHandler_salida, os_setEstadoSistema, NVIC_ClearPendingIRQ,
      os_getFlagISR, os_setFlagISR, os_Yield]
    cases s2.flagISR <;> rfl

theorem os_IRQHandler_tabla_witness :
    os_con_rutina.isr_vector_usuario 2 ≠ NULL ∧
    ∃ s3, os_IRQHandler 3 codigo_ej 2 os_con_rutina = Except.ok s3 ∧
      (∀ j, s3.isr_vector_usuario j = os_con_rutina.isr_vector_usuario j) ∧
      (∀ j, Event.NVIC_EnableIRQ j ∉ os_IRQHandler_antes 3 7 ++ os_IRQHandler_despues 1 2 true) ∧
      (∀ j, Event.NVIC_DisableIRQ j ∉ os_IRQHandler_antes 3 7 ++ os_IRQHandler_despues 1 2 true) :=
  ⟨by decide,
    match os_IRQHandler_tabla 3 codigo_ej 2 os_con_rutina _ (by decide) rfl (fun _ => rfl) with
    | ⟨s3, h3, ht, _, _, _, _, he, hd, _⟩ => ⟨s3, h3, ht, he, hd⟩⟩

/-! ## Nested dispatch -/

/-- C17, as stated, fails. A dispatch of line 2 whose routine is interrupted by
a complete dispatch of line 3 (whose routine overwrites the run-state and sets
the flag): the inner dispatch restores the run-state it found, the outer one
restores the pre-dispatch run-state, here 1, and does so for every prior
run-state value. -/
theorem anidado_contraejemplo :
    (∃ s3, os_IRQHandler 3 (codigo_anidado 3 codigo_ej 3 9) 2 os_dos_rutinas = Except.ok s3 ∧
      s3.trace = os_dos_rutinas.trace ++
        [Event.os_getEstadoSistema, Event.os_setEstadoSistema 3, Event.funcion_usuario 9,
         Event.os_getEstadoSistema, Event.os_setEstadoSistema 3, Event.funcion_usuario 7,
         Event.os_setEstadoSistema 99, Event.os_setFlagISR true,
         Event.os_setEstadoSistema 3, Event.NVIC_ClearPendingIRQ 3, Event.os_getFlagISR,
         Event.os_setFlagISR false, Event.os_Yield,
         Event.os_setEstadoSistema 1, Event.NVIC_ClearPendingIRQ 2, Event.os_getFlagISR] ∧
      os_dos_rutinas.estadoSistema = 1 ∧ s3.estadoSistema = 1) ∧
    (∀ e : estadoOS, ∃ s3,
      os_IRQHandler 3 (codigo_anidado 3 codigo_ej 3 9) 2
        { os_dos_rutinas with estadoSistema := e } = Except.ok s3 ∧
      s3.estadoSistema = e) :=
  ⟨⟨_, rfl, rfl, rfl, rfl⟩, fun _ => ⟨_, rfl, rfl⟩⟩

/-- C17, amended: nested dispatch does not corrupt the restore of the
run-state, because the saved state is a local of each invocation. When the
routine of a dispatch of `IRQn` is interrupted by a dispatch of `irq2` that
runs to completion, the inner dispatch returns with the run-state it found,
`OS_IRQ_RUN`, and the outer dispatch returns with the run-state observed before
it began, for every prior run-state value. -/
theorem os_IRQHandler_anidado (OS_IRQ_RUN : estadoOS) (interno : Codigo) (IRQn irq2 : Int)
    (s s2 : OS) (hreg : s.isr_vector_usuario IRQn ≠ NULL)
    (hreg2 : s.isr_vector_usuario irq2 ≠ NULL)
    (hret : interno (s.isr_vector_usuario irq2)
      (os_IRQHandler_entrada OS_IRQ_RUN irq2 (os_IRQHandler_entrada OS_IRQ_RUN IRQn s))
        = Except.ok s2) :
    ∃ si s3,
      os_IRQHandler OS_IRQ_RUN interno irq2 (os_IRQHandler_entrada OS_IRQ_RUN IRQn s)
        = Except.ok si ∧
      si.estadoSistema = OS_IRQ_RUN ∧
      os_IRQHandler OS_IRQ_RUN
        (codigo_anidado OS_IRQ_RUN interno irq2 (s.isr_vector_usuario IRQn)) IRQn s
        = Except.ok s3 ∧
      s3.estadoSistema = s.estadoSistema := by
  have hreg2e : (os_IRQHandler_entrada OS_IRQ_RUN IRQn s).isr_vector_usuario irq2 ≠ NULL := hreg2
  have hin : os_IRQHandler OS_IRQ_RUN interno irq2 (os_IRQHandler_entrada OS_IRQ_RUN IRQn s)
      = Except.ok (os_IRQHandler_salida OS_IRQ_RUN irq2 s2) := by
    rw [os_IRQHandler_eq OS_IRQ_RUN interno irq2 _ hreg2e]
    have hslot : (os_IRQHandler_entrada OS_IRQ_RUN IRQn s).isr_vector_usuario irq2
        = s.isr_vector_usuario irq2 := rfl
    rw [hslot, hret]
    rfl
  refine ⟨os_IRQHandler_salida OS_IRQ_RUN irq2 s2,
    os_IRQHandler_salida s.estadoSistema IRQn (os_IRQHandler_salida OS_IRQ_RUN irq2 s2),
    hin, os_IRQHandler_salida_estado _ _ _, ?_, os_IRQHandler_salida_estado _ _ _⟩
  rw [os_IRQHandler_eq OS_IRQ_RUN _ IRQn s hreg]
  simp only [codigo_anidado, if_true, hin]

theorem os_IRQHandler_anidado_witness :
    os_dos_rutinas.isr_vector_usuario 2 ≠ NULL ∧ os_dos_rutinas.isr_vector_usuario 3 ≠ NULL ∧
    ∃ si s3,
      os_IRQHandler 3 codigo_ej 3 (os_IRQHandler_entrada 3 2 os_dos_rutinas) = Except.ok si ∧
      si.estadoSistema = 3 ∧
      os_IRQHandler 3 (codigo_anidado 3 codigo_ej 3 9) 2 os_dos_rutinas = Except.ok s3 ∧
      s3.estadoSistema = os_dos_rutinas.estadoSistema :=
  ⟨by decide, by decide,
    os_IRQHandler_anidado 3 codigo_ej 2 3 os_dos_rutinas _ (by decide) (by decide) rfl⟩

/-! ## Implicit behaviour -/

/-- C18: exact reschedule rule. For a dispatch with a registered routine that
returns, whatever the flag was before the dispatch and whatever the routine
did, the number of `os_Yield` calls `os_IRQHandler` issues itself is 1 if the
flag is set when the routine returns and 0 otherwise, and the flag it leaves is
false. -/
theorem os_IRQHandler_regla_exacta (OS_IRQ_RUN : estadoOS) (codigo : Codigo) (IRQn : Int)
    (s s2 : OS) (hreg : s.isr_vector_usuario IRQn ≠ NULL)
    (hret : codigo (s.isr_vector_usuario IRQn) (os_IRQHandler_entrada OS_IRQ_RUN IRQn s)
      = Except.ok s2) :
    ∃ s3, os_IRQHandler OS_IRQ_RUN codigo IRQn s = Except.ok s3 ∧
      (os_IRQHandler_entrada OS_IRQ_RUN IRQn s).trace
        = s.trace ++ os_IRQHandler_antes OS_IRQ_RUN (s.isr_vector_usuario IRQn) ∧
      s3.trace = s2.trace ++ os_IRQHandler_despues s.estadoSistema IRQn s2.flagISR ∧
      (os_IRQHandler_antes OS_IRQ_RUN (s.isr_vector_usuario IRQn)
        ++ os_IRQHandler_despues s.estadoSistema IRQn s2.flagISR).count Event.os_Yield
        = (if s2.flagISR then 1 else 0) ∧
      s3.flagISR = false := by
  refine ⟨os_IRQHandler_salida s.estadoSistema IRQn s2, ?_, ?_, ?_, ?_, ?_⟩
  · rw [os_IRQHandler_eq OS_IRQ_RUN codigo IRQn s hreg, hret]
  · exact os_IRQHandler_entrada_trace _ _ _
  · exact os_IRQHandler_salida_trace _ _ _
  · cases hf : s2.flagISR <;> simp [os_IRQHandler_antes, os_IRQHandler_despues]
  · exact os_IRQHandler_salida_flag _ _ _

theorem os_IRQHandler_regla_exacta_witness :
    ({ os_con_rutina with flagISR := true }).isr_vector_usuario 2 ≠ NULL ∧
    ∃ s3, os_IRQHandler 3 codigo_nada 2 { os_con_rutina with flagISR := true } = Except.ok s3 ∧
      (os_IRQHandler_antes 3 7 ++ os_IRQHandler_despues 1 2 true).count Event.os_Yield = 1 ∧
      s3.flagISR = false :=
  ⟨by decide,
    match os_IRQHandler_regla_exacta 3 codigo_nada 2 { os_con_rutina with flagISR := true } _
      (by decide) rfl with
    | ⟨s3, h3, _, _, hc, hf⟩ => ⟨s3, h3, hc, hf⟩⟩

/-- C19: installing the null pointer. For a valid identifier with an empty
slot, `os_InstalarIRQ(irq, NULL)` returns true, issues clear-pending and enable
for the identifier, and leaves the slot empty with the line enabled; an
install that follows at once returns true as well. -/
theorem os_InstalarIRQ_nulo (CANT_IRQ : Nat) (s : OS) (irq : Int) (h : Ptr)
    (_hv : valido CANT_IRQ irq) (he : s.isr_vector_usuario irq = NULL) :
    (os_InstalarIRQ irq NULL s).1 = true ∧
    (os_InstalarIRQ irq NULL s).2.trace
      = s.trace ++ [Event.NVIC_ClearPendingIRQ irq, Event.NVIC_EnableIRQ irq] ∧
    (os_InstalarIRQ irq NULL s).2.isr_vector_usuario irq = NULL ∧
    (os_InstalarIRQ irq NULL s).2.nvic_enabled irq = true ∧
    (os_InstalarIRQ irq h (os_InstalarIRQ irq NULL s).2).1 = true := by
  have hslot := (os_InstalarIRQ_vacio_slot irq NULL s he).2
  refine ⟨(os_InstalarIRQ_vacio_slot irq NULL s he).1, ?_, hslot, ?_,
    (os_InstalarIRQ_vacio_slot irq h _ hslot).1⟩
  · simp [os_InstalarIRQ, he, NVIC_ClearPendingIRQ, NVIC_EnableIRQ]
  · simp [os_InstalarIRQ, he, NVIC_ClearPendingIRQ, NVIC_EnableIRQ]

theorem os_InstalarIRQ_nulo_witness :
    valido 4 2 ∧ os_inicial.isr_vector_usuario 2 = NULL ∧
    (os_InstalarIRQ 2 NULL os_inicial).1 = true ∧
    (os_InstalarIRQ 2 NULL os_inicial).2.trace
      = os_inicial.trace ++ [Event.NVIC_ClearPendingIRQ 2, Event.NVIC_EnableIRQ 2] ∧
    (os_InstalarIRQ 2 NULL os_inicial).2.isr_vector_usuario 2 = NULL ∧
    (os_InstalarIRQ 2 NULL os_inicial).2.nvic_enabled 2 = true ∧
    (os_InstalarIRQ 2 7 (os_InstalarIRQ 2 NULL os_inicial).2).1 = true :=
  ⟨by decide, by decide, os_InstalarIRQ_nulo 4 os_inicial 2 7 (by decide) (by decide)⟩

/-- C20: frame of install and remove. For a valid identifier, whether they
succeed or fail, `os_InstalarIRQ` and `os_RemoverIRQ` leave every other slot,
the run-state and the flag unchanged, and every call they issue is a
clear-pending, enable or disable of that identifier: no call of the run-state
port, no reschedule request, no controller call for another line. -/
theorem marco_instalar_remover (CANT_IRQ : Nat) (s : OS) (irq : Int) (h : Ptr)
    (_hv : valido CANT_IRQ irq) :
    ((∀ j, j ≠ irq →
        (os_InstalarIRQ irq h s).2.isr_vector_usuario j = s.isr_vector_usuario j) ∧
      (os_InstalarIRQ irq h s).2.estadoSistema = s.estadoSistema ∧
      (os_InstalarIRQ irq h s).2.flagISR = s.flagISR ∧
      (∀ j, j ≠ irq → (os_InstalarIRQ irq h s).2.nvic_enabled j = s.nvic_enabled j ∧
        (os_InstalarIRQ irq h s).2.nvic_pending j = s.nvic_pending j) ∧
      ∃ evs, (os_InstalarIRQ irq h s).2.trace = s.trace ++ evs ∧
        ∀ e ∈ evs, e = Event.NVIC_ClearPendingIRQ irq ∨ e = Event.NVIC_EnableIRQ irq) ∧
    ((∀ j, j ≠ irq →
        (os_RemoverIRQ irq s).2.isr_vector_usuario j = s.isr_vector_usuario j) ∧
      (os_RemoverIRQ irq s).2.estadoSistema = s.estadoSistema ∧
      (os_RemoverIRQ irq s).2.flagISR = s.flagISR ∧
      (∀ j, j ≠ irq → (os_RemoverIRQ irq s).2.nvic_enabled j = s.nvic_enabled j ∧
        (os_RemoverIRQ irq s).2.nvic_pending j = s.nvic_pending j) ∧
      ∃ evs, (os_RemoverIRQ irq s).2.trace = s.trace ++ evs ∧
        ∀ e ∈ evs, e = Event.NVIC_ClearPendingIRQ irq ∨ e = Event.NVIC_DisableIRQ irq) := by
  constructor
  · by_cases he : s.isr_vector_usuario irq = NULL
    · refine ⟨fun j hj => ?_, ?_, ?_, fun j hj => ?_,
        [Event.NVIC_ClearPendingIRQ irq, Event.NVIC_EnableIRQ irq], ?_, ?_⟩
      · simp [os_InstalarIRQ, he, NVIC_ClearPendingIRQ, NVIC_EnableIRQ, hj]
      · simp [os_InstalarIRQ, he, NVIC_ClearPendingIRQ, NVIC_EnableIRQ]
      · simp [os_InstalarIRQ, he, NVIC_ClearPendingIRQ, NVIC_EnableIRQ]
      · simp [os_InstalarIRQ, he, NVIC_ClearPendingIRQ, NVIC_EnableIRQ, hj]
      · simp [os_InstalarIRQ, he, NVIC_ClearPendingIRQ, NVIC_EnableIRQ]
      · intro e hmem
        simpa using hmem
    · rw [os_InstalarIRQ_ocupado_eq irq h s he]
      exact ⟨fun _ _ => rfl, rfl, rfl, fun _ _ => ⟨rfl, rfl⟩, [], by simp, by simp⟩
  · by_cases he : s.isr_vector_usuario irq = NULL
    · rw [os_RemoverIRQ_vacio_eq irq s he]
      exact ⟨fun _ _ => rfl, rfl, rfl, fun _ _ => ⟨rfl, rfl⟩, [], by simp, by simp⟩
    · refine ⟨fun j hj => ?_, ?_, ?_, fun j hj => ?_,
        [Event.NVIC_ClearPendingIRQ irq, Event.NVIC_DisableIRQ irq], ?_, ?_⟩
      · simp [os_RemoverIRQ, he, NVIC_ClearPendingIRQ, NVIC_DisableIRQ, hj]
      · simp [os_RemoverIRQ, he, NVIC_ClearPendingIRQ, NVIC_DisableIRQ]
      · simp [os_RemoverIRQ, he, NVIC_ClearPendingIRQ, NVIC_DisableIRQ]
      · simp [os_RemoverIRQ, he, NVIC_ClearPendingIRQ, NVIC_DisableIRQ, hj]
      · simp [os_RemoverIRQ, he, NVIC_ClearPendingIRQ, NVIC_DisableIRQ]
      · intro e hmem
        simpa using hmem

theorem marco_instalar_remover_witness :
    valido 4 2 ∧
    (∀ j, j ≠ 2 →
      (os_InstalarIRQ 2 7 os_inicial).2.isr_vector_usuario j = os_inicial.isr_vector_usuario j) ∧
    (os_InstalarIRQ 2 7 os_inicial).2.estadoSistema = os_inicial.estadoSistema ∧
    (os_InstalarIRQ 2 7 os_inicial).2.flagISR = os_inicial.flagISR ∧
    (os_RemoverIRQ 2 os_inicial).2.estadoSistema = os_inicial.estadoSistema ∧
    (os_RemoverIRQ 2 os_inicial).2.flagISR = os_inicial.flagISR :=
  have t := marco_instalar_remover 4 os_inicial 2 7 (by decide)
  ⟨by decide, t.1.1, t.1.2.1, t.1.2.2.1, t.2.2.1, t.2.2.2.1⟩

end MSE_OS_IRQ
